import Mathlib

/- Shallow embedding of the web typings installer from
   src/extensions/typescript-language-features/web/typingsInstaller.ts,
   together with the throttling scheduler of the
   ts.server.typingsInstaller.TypingsInstaller base class that
   WebTypingsInstallerServer extends; the base class belongs to the
   bundled tsserver library, and WebTypingsInstallerServer instantiates
   it with throttleLimit = Infinity (typingsInstaller.ts line 136).

   Modelling conventions:
   - asynchronous effects are made explicit: promise completion and
     then-callbacks become events of a small transition system;
   - external collaborators (the package manager, JSON parsing, and the
     package name validator from web/jsTyping.ts) are taken as function
     parameters, since the code consumes them as black boxes;
   - a thrown exception becomes an Except.error value. -/

namespace WebTypings

/-! ### Package name validation (external collaborator)

The function validatePackageNameWorker lives in web/jsTyping.ts and is
consumed as a pure function. Only the result tag is inspected by the
installer (line 91), so the result type is embedded while the validator
itself stays a parameter of every client operation that uses it. -/

inductive NameValidationResult where
  | Ok
  | EmptyName
  | NameTooLong
  | NameStartsWithDot
  | NameStartsWithUnderscore
  | NameContainsNonURISafeCharacters
  deriving DecidableEq, Repr

/-- Sample instance of the external validator, used only to instantiate
witnesses on concrete inputs. -/
def sampleValidate (s : String) : NameValidationResult :=
  if s = "" then NameValidationResult.EmptyName else NameValidationResult.Ok

/-! ### Client state (WebTypingsInstallerClient, lines 37-117) -/

structure ProjectService where
  name : String
  deriving DecidableEq, Repr

/-- Mutable fields of WebTypingsInstallerClient (lines 39-45).
The field subscriptionCount is a ghost counter recording how many
then-callbacks the client has registered on the server promise
(line 100); the code never stores such a number, but the counter makes
the single-subscription discipline observable in the model. The
registry cache keeps only the key set of the Map, because the client
consumes the cache through has alone (line 96). -/
structure ClientModel where
  projectService : Option ProjectService
  requestedRegistry : Bool
  typesRegistryCache : List String
  subscriptionCount : Nat
  deriving DecidableEq, Repr

/-- State of a freshly constructed client: no project service attached,
registry not yet requested, cache empty (lines 39-43). -/
def initClient : ClientModel := ⟨none, false, [], 0⟩

/-- Embeds isKnownTypesPackageName (lines 88-102). Returns the boolean
answer together with the updated client state. Line 96 additionally
tests that the cache object is non-null, which is always true because
the field is initialized at line 43, so that test is dropped. -/
def isKnownTypesPackageName (validate : String → NameValidationResult)
    (st : ClientModel) (packageName : String) : Bool × ClientModel :=
  if validate packageName ≠ NameValidationResult.Ok then
    (false, st)
  else if st.requestedRegistry then
    (st.typesRegistryCache.contains packageName, st)
  else
    (false, ⟨st.projectService, true, st.typesRegistryCache, st.subscriptionCount + 1⟩)

/-- Embeds the then-callback registered at line 100 firing once the
server promise has resolved: the cache is replaced by the loaded
registry, and only if the client has registered the callback. -/
def deliverRegistry (st : ClientModel) (typesRegistry : List String) : ClientModel :=
  if st.subscriptionCount = 0 then st
  else ⟨st.projectService, st.requestedRegistry, typesRegistry, st.subscriptionCount⟩

/-- Events observed by the client: a synchronous lookup call, or the
completion of the server promise (successful with the loaded registry
key set, or rejected with an error). -/
inductive ClientEvent where
  | call (packageName : String)
  | serverDone (outcome : Except String (List String))

/-- One transition of the client. A rejected server promise never runs
the then-callback of line 100, so the state is unchanged. -/
def stepClient (validate : String → NameValidationResult) (st : ClientModel) :
    ClientEvent → ClientModel
  | ClientEvent.call n => (isKnownTypesPackageName validate st n).2
  | ClientEvent.serverDone (Except.ok reg) => deliverRegistry st reg
  | ClientEvent.serverDone (Except.error _) => st

/-- Runs a sequence of client events from a starting state. -/
def runClient (validate : String → NameValidationResult) (st : ClientModel)
    (events : List ClientEvent) : ClientModel :=
  events.foldl (stepClient validate) st

/-- Holds when no event of the trace is a successful completion of the
registry load, i.e. the load failed or is still pending. -/
def noSuccessfulLoad (events : List ClientEvent) : Bool :=
  events.all fun e =>
    match e with
    | ClientEvent.serverDone (Except.ok _) => false
    | _ => true

/-- Embeds attach (lines 110-112). -/
def attach (st : ClientModel) (projectService : ProjectService) : ClientModel :=
  ⟨some projectService, st.requestedRegistry, st.typesRegistryCache, st.subscriptionCount⟩

/-! ### Response dispatch (lines 31 and 64-78) -/

/-- Tags of the InstallerResponse union type (line 31). Payload fields
of the tsserver response objects are irrelevant to the dispatch in
handleResponse, which switches on the kind tag alone, so the
constructors carry no fields. The tag strings of the source are:
action::packageInstalled, action::set, action::invalidate,
event::beginInstallTypes, event::endInstallTypes, and
action::watchTypingLocations. -/
inductive InstallerResponse where
  | packageInstalled
  | setTypings
  | invalidateCachedTypings
  | beginInstallTypes
  | endInstallTypes
  | watchTypingLocations
  deriving DecidableEq, Repr

/-- Observable effects of handleResponse on the project service. -/
inductive ClientAction where
  | updateTypingsForProject (response : InstallerResponse)
  deriving DecidableEq, Repr

/-- Embeds handleResponse (lines 64-78). The three action tags forward
the response to the stored project service through a non-null
assertion; at runtime a missing project service makes the member access
on undefined throw a TypeError, modelled as an error result. The two
event tags are ignored. Every other tag reaches the default branch,
which throws. -/
def handleResponse (st : ClientModel) (response : InstallerResponse) :
    Except String (List ClientAction) :=
  match response with
  | InstallerResponse.packageInstalled
  | InstallerResponse.invalidateCachedTypings
  | InstallerResponse.setTypings =>
    match st.projectService with
    | some _ => Except.ok [ClientAction.updateTypingsForProject response]
    | none => Except.error "TypeError: cannot read properties of undefined"
  | InstallerResponse.beginInstallTypes
  | InstallerResponse.endInstallTypes => Except.ok []
  | InstallerResponse.watchTypingLocations => Except.error "unexpected response"

/-- Classifies the response tags that handleResponse forwards to the
project service (the three action cases of lines 66-68). -/
def isForwardedKind : InstallerResponse → Bool
  | InstallerResponse.packageInstalled
  | InstallerResponse.invalidateCachedTypings
  | InstallerResponse.setTypings => true
  | _ => false

/-! ### installPackage (lines 82-84) -/

structure InstallPackageOptionsWithProject where
  packageName : String
  projectName : String
  deriving DecidableEq, Repr

structure ApplyCodeActionCommandResult where
  successMessage : String
  deriving DecidableEq, Repr

/-- Embeds installPackage (lines 82-84): the body unconditionally
throws an Error with the message given at line 83. -/
def installPackage (_options : InstallPackageOptionsWithProject) :
    Except String ApplyCodeActionCommandResult :=
  Except.error "not implemented"

/-! ### File system and server initialization (lines 146-169, 206-212)

The ServerHost file operations are modelled as an association list from
path to file contents; a later write shadows earlier ones. -/

structure FsState where
  files : List (String × String)
  deriving DecidableEq, Repr

/-- Embeds ServerHost.readFile: some contents, or none when absent. -/
def readFile (fs : FsState) (path : String) : Option String :=
  fs.files.lookup path

/-- Embeds ServerHost.fileExists, consistent with readFile. -/
def fileExists (fs : FsState) (path : String) : Bool :=
  (readFile fs path).isSome

/-- Embeds ServerHost.writeFile. -/
def writeFile (fs : FsState) (path contents : String) : FsState :=
  ⟨(path, contents) :: fs.files⟩

/-- Embeds join from the path module as used at lines 152 and 162;
normalization beyond concatenation is irrelevant here. -/
def joinPath (dir file : String) : String := dir ++ "/" ++ file

/-- Contents written at line 154 when no manifest exists. -/
def minimalManifest : String := "\x7b\x22private\x22:true\x7d"

/-- Embeds readJson (lines 206-212) up to JSON parsing: fs.readFile
returning undefined, and also an empty string, is falsy and throws;
otherwise the trimmed contents are handed to JSON.parse, which is a
platform primitive and therefore left to the caller as a parameter. -/
def readJson (fs : FsState) (path : String) : Except String String :=
  match readFile fs path with
  | none => Except.error ("Failed to read file: " ++ path)
  | some data =>
    if data = "" then Except.error ("Failed to read file: " ++ path)
    else Except.ok data.trim

/-- Embeds the manifest phase of WebTypingsInstallerServer
initialization (lines 152-155): create the minimal manifest at the
global typings cache root only when no manifest file exists there. -/
def initManifestPhase (globalTypingsCachePath : String) (fs : FsState) : FsState :=
  if fileExists fs (joinPath globalTypingsCachePath "package.json") then fs
  else writeFile fs (joinPath globalTypingsCachePath "package.json") minimalManifest

/-- Embeds the rest of initialization (lines 156-168): the package
manager resolves and restores the types-registry package (external
collaborator, parameter resolveRestore, which may mutate the file
system), then the registry index file is read with readJson and parsed
(parameter parseIndex standing for JSON.parse plus the projection to
the entries object); the registry is the key set of those entries. -/
def resolveAndLoadRegistry (resolveRestore : FsState → Except String FsState)
    (parseIndex : String → Except String (List (String × String)))
    (globalTypingsCachePath : String) (fs1 : FsState) :
    Except String (List String × FsState) :=
  match resolveRestore fs1 with
  | Except.error e => Except.error e
  | Except.ok fs2 =>
    match readJson fs2 (joinPath globalTypingsCachePath "node_modules/types-registry/index.json") with
    | Except.error e => Except.error e
    | Except.ok data =>
      match parseIndex data with
      | Except.error e => Except.error e
      | Except.ok entries => Except.ok (entries.map Prod.fst, fs2)

/-- Embeds WebTypingsInstallerServer initialization (lines 146-169):
the manifest phase runs first, and the resulting file system state is
the one handed to package resolution and registry loading. An error
anywhere rejects the server promise. -/
def initServer (resolveRestore : FsState → Except String FsState)
    (parseIndex : String → Except String (List (String × String)))
    (globalTypingsCachePath : String) (fs : FsState) :
    Except String (List String × FsState) :=
  resolveAndLoadRegistry resolveRestore parseIndex globalTypingsCachePath
    (initManifestPhase globalTypingsCachePath fs)

/-! ### installWorker (lines 177-191) -/

/-- Embeds installWorker (lines 177-191). The async body resolves the
requested packages against the working directory and restores them; the
try block converts success into one completion report with true and the
catch block converts any failure of resolution or restore into one
completion report with false. The package manager is the external
collaborator: resolveProject takes the working directory and the
package list and yields a resolved project handle of abstract type R,
and restore runs the restore of that handle. The returned list collects
the invocations of the onRequestCompleted callback in order. -/
def installWorker {R : Type} (_requestId : Nat) (packageNames : List String)
    (cwd : String) (resolveProject : String → List String → Except String R)
    (restore : R → Except String Unit) : List Bool :=
  match resolveProject cwd packageNames with
  | Except.error _ => [false]
  | Except.ok resolved =>
    match restore resolved with
    | Except.error _ => [false]
    | Except.ok _ => [true]

/-! ### The throttling scheduler of the TypingsInstaller base class

WebTypingsInstallerServer extends ts.server.typingsInstaller
.TypingsInstaller (line 125) and passes Infinity as the throttleLimit
constructor argument (line 136). Install requests reach the base class
through enqueueInstallTypingsRequest (lines 104-108), which forwards to
install on the server; the base class eventually calls its private
installTypingsAsync, which unshifts a pending run request onto
pendingRunRequests and runs executeWithThrottling, and that loop
dispatches installWorker while inFlightRequestCount is below
throttleLimit and pending requests remain, popping from the back of the
array (FIFO overall) and incrementing inFlightRequestCount for each
dispatch; the count is decremented only when a dispatched worker
completes. The scheduler below embeds exactly that loop, parameterized
by the throttle limit, with none standing for Infinity. The fields
inFlightWorkers and dispatchOrder are ghost observables recording the
dispatched but not yet completed workers, and all dispatches, in
order. -/

structure PendingRequest where
  requestId : Nat
  packageNames : List String
  cwd : String
  deriving DecidableEq, Repr

structure InstallerQueueState where
  pendingRunRequests : List PendingRequest
  inFlightRequestCount : Nat
  inFlightWorkers : List PendingRequest
  dispatchOrder : List PendingRequest
  deriving DecidableEq, Repr

/-- Comparison against the throttle limit; none models Infinity, below
which every finite count lies. -/
def belowThrottleLimit : Option Nat → Nat → Bool
  | none, _ => true
  | some l, n => decide (n < l)

/-- Body of the executeWithThrottling while loop. Each iteration
removes one pending request, so the initial queue length bounds the
number of iterations and serves as structural fuel; once fuel runs out
the queue is empty and the loop condition is false anyway. -/
def execLoop (throttleLimit : Option Nat) : Nat → InstallerQueueState → InstallerQueueState
  | 0, st => st
  | Nat.succ fuel, st =>
    if belowThrottleLimit throttleLimit st.inFlightRequestCount
        && !st.pendingRunRequests.isEmpty then
      match st.pendingRunRequests.getLast? with
      | none => st
      | some request =>
        execLoop throttleLimit fuel
          ⟨st.pendingRunRequests.dropLast, st.inFlightRequestCount + 1,
           st.inFlightWorkers ++ [request], st.dispatchOrder ++ [request]⟩
    else st

/-- Embeds executeWithThrottling of the base class. -/
def executeWithThrottling (throttleLimit : Option Nat) (st : InstallerQueueState) :
    InstallerQueueState :=
  execLoop throttleLimit st.pendingRunRequests.length st

/-- Embeds installTypingsAsync of the base class: unshift the request,
then run the throttling loop. -/
def installTypingsAsync (throttleLimit : Option Nat) (request : PendingRequest)
    (st : InstallerQueueState) : InstallerQueueState :=
  executeWithThrottling throttleLimit
    ⟨request :: st.pendingRunRequests, st.inFlightRequestCount,
     st.inFlightWorkers, st.dispatchOrder⟩

/-- Embeds the completion callback handed to installWorker by the base
class: decrement the in-flight count and rerun the throttling loop. -/
def onWorkerCompleted (throttleLimit : Option Nat) (request : PendingRequest)
    (st : InstallerQueueState) : InstallerQueueState :=
  executeWithThrottling throttleLimit
    ⟨st.pendingRunRequests, st.inFlightRequestCount - 1,
     st.inFlightWorkers.erase request, st.dispatchOrder⟩

/-- Queue state of a freshly constructed installer. -/
def initQueue : InstallerQueueState := ⟨[], 0, [], []⟩

/-- Throttle limit the repository passes to the base class constructor:
Infinity (line 136). -/
def webThrottleLimit : Option Nat := none

/-- Enqueues a sequence of install requests in submission order with no
completion in between. -/
def enqueueAll (throttleLimit : Option Nat) (requests : List PendingRequest)
    (st : InstallerQueueState) : InstallerQueueState :=
  requests.foldl (fun s r => installTypingsAsync throttleLimit r s) st

/-! ### Helper lemmas -/

/-- Helper: a lookup call never changes the registry cache. -/
theorem isKnownTypesPackageName_preserves_cache
    (validate : String → NameValidationResult) (st : ClientModel) (n : String) :
    ((isKnownTypesPackageName validate st n).2).typesRegistryCache
      = st.typesRegistryCache := by
  unfold isKnownTypesPackageName
  split
  · rfl
  · split
    · rfl
    · rfl

/-- Helper: with an empty registry cache, a lookup answers false on
every branch. -/
theorem isKnown_false_of_cache_empty (validate : String → NameValidationResult)
    (st : ClientModel) (n : String) (h : st.typesRegistryCache = []) :
    (isKnownTypesPackageName validate st n).1 = false := by
  unfold isKnownTypesPackageName
  split
  · rfl
  · split
    · rw [h]
      rfl
    · rfl

/-- Helper: along any trace with no successful registry load, the
registry cache stays empty. -/
theorem runClient_cache_empty (validate : String → NameValidationResult)
    (events : List ClientEvent) :
    noSuccessfulLoad events = true →
      ∀ st : ClientModel, st.typesRegistryCache = [] →
        (runClient validate st events).typesRegistryCache = [] := by
  induction events with
  | nil =>
    intro _ st hst
    exact hst
  | cons e rest ih =>
    intro h st hst
    simp only [noSuccessfulLoad, List.all_cons, Bool.and_eq_true] at h
    have hstep : (stepClient validate st e).typesRegistryCache = [] := by
      cases e with
      | call n =>
        rw [stepClient, isKnownTypesPackageName_preserves_cache]
        exact hst
      | serverDone outcome =>
        cases outcome with
        | ok reg => exact Bool.noConfusion h.1
        | error msg => exact hst
    exact ih h.2 (stepClient validate st e) hstep

/-! ### Claims about isKnownTypesPackageName -/

/-- Claim C3: for every string packageName, isKnownTypesPackageName
returns true only if packageName passes the package name validity
check, and for any name failing the validity check it returns false,
in every registry state (loaded, loading, or failed) and for every
validator. -/
theorem isKnownTypesPackageName_requires_valid_name
    (validate : String → NameValidationResult) (st : ClientModel) (n : String) :
    ((isKnownTypesPackageName validate st n).1 = true →
        validate n = NameValidationResult.Ok)
    ∧ (validate n ≠ NameValidationResult.Ok →
        (isKnownTypesPackageName validate st n).1 = false) := by
  constructor
  · intro h1
    by_cases hv : validate n = NameValidationResult.Ok
    · exact hv
    · exfalso
      have h2 : (isKnownTypesPackageName validate st n).1 = false := by
        unfold isKnownTypesPackageName
        rw [if_pos hv]
      rw [h1] at h2
      exact Bool.noConfusion h2
  · intro hv
    unfold isKnownTypesPackageName
    rw [if_pos hv]

/-- Witness for the claim C3 theorem at a concrete invalid name and the
initial client state. -/
theorem isKnownTypesPackageName_requires_valid_name_witness :
    (isKnownTypesPackageName sampleValidate initClient "").1 = false :=
  (isKnownTypesPackageName_requires_valid_name sampleValidate initClient "").2
    (by decide)

/-- Claim C4: the first lookup of a valid name on a fresh client, made
before the registry has been delivered, returns false and registers the
cache-population callback on the server promise exactly once; any
subsequent lookup while the load is still pending returns false again
and registers no further callback; and once the loaded registry has
been delivered through that callback, lookups of valid names answer
membership in the loaded index. -/
theorem isKnownTypesPackageName_first_call (validate : String → NameValidationResult)
    (n : String) (h : validate n = NameValidationResult.Ok) :
    (isKnownTypesPackageName validate initClient n).1 = false
    ∧ (isKnownTypesPackageName validate initClient n).2.subscriptionCount = 1
    ∧ (∀ m : String,
        (isKnownTypesPackageName validate
          (isKnownTypesPackageName validate initClient n).2 m).1 = false
        ∧ (isKnownTypesPackageName validate
            (isKnownTypesPackageName validate initClient n).2 m).2.subscriptionCount = 1)
    ∧ (∀ (reg : List String) (m : String), validate m = NameValidationResult.Ok →
        (isKnownTypesPackageName validate
          (deliverRegistry (isKnownTypesPackageName validate initClient n).2 reg) m).1
          = reg.contains m) := by
  have hst : isKnownTypesPackageName validate initClient n
      = (false, ⟨none, true, [], 1⟩) := by
    simp [isKnownTypesPackageName, initClient, h]
  refine ⟨by rw [hst], by rw [hst], ?_, ?_⟩
  · intro m
    rw [hst]
    by_cases hm : validate m = NameValidationResult.Ok
    · constructor
      · simp [isKnownTypesPackageName, hm]
      · simp [isKnownTypesPackageName, hm]
    · constructor
      · simp [isKnownTypesPackageName, hm]
      · simp [isKnownTypesPackageName, hm]
  · intro reg m hm
    rw [hst]
    simp [deliverRegistry, isKnownTypesPackageName, hm]

/-- Witness for the claim C4 theorem at a concrete valid name. -/
theorem isKnownTypesPackageName_first_call_witness :
    (isKnownTypesPackageName sampleValidate initClient "lodash").1 = false
    ∧ (isKnownTypesPackageName sampleValidate initClient "lodash").2.subscriptionCount = 1 :=
  ⟨(isKnownTypesPackageName_first_call sampleValidate "lodash" (by decide)).1,
   (isKnownTypesPackageName_first_call sampleValidate "lodash" (by decide)).2.1⟩

/-- Claim C6: after the registry load has failed, and more generally as
long as no successful load has been delivered, every call to
isKnownTypesPackageName returns false for every name, without throwing
(the embedded lookup is a total function). -/
theorem registryLoadFailure_isKnown_false (validate : String → NameValidationResult)
    (events : List ClientEvent) (h : noSuccessfulLoad events = true)
    (packageName : String) :
    (isKnownTypesPackageName validate (runClient validate initClient events)
      packageName).1 = false :=
  isKnown_false_of_cache_empty validate _ packageName
    (runClient_cache_empty validate events h initClient rfl)

/-- Witness for the claim C6 theorem on a concrete trace in which the
registry load fails after a first lookup. -/
theorem registryLoadFailure_isKnown_false_witness :
    (isKnownTypesPackageName sampleValidate
      (runClient sampleValidate initClient
        [ClientEvent.call "lodash",
         ClientEvent.serverDone (Except.error "network unavailable")])
      "lodash").1 = false :=
  registryLoadFailure_isKnown_false sampleValidate
    [ClientEvent.call "lodash",
     ClientEvent.serverDone (Except.error "network unavailable")]
    (by decide) "lodash"

/-! ### Claim about installWorker -/

/-- Claim C2: for every requestId, package name list, working directory
and package manager behavior, installWorker never lets an exception
escape (the embedding is a total function into a report list): every
failure of resolution or restore is converted into one completion
report with false, success is reported with true, and exactly one
completion report is made per invocation. -/
theorem installWorker_reports_exactly_once {R : Type} (requestId : Nat)
    (packageNames : List String) (cwd : String)
    (resolveProject : String → List String → Except String R)
    (restore : R → Except String Unit) :
    ∃ ok : Bool,
      installWorker requestId packageNames cwd resolveProject restore = [ok]
      ∧ (ok = true ↔ ∃ resolved, resolveProject cwd packageNames = Except.ok resolved
            ∧ restore resolved = Except.ok ()) := by
  cases hres : resolveProject cwd packageNames with
  | error e =>
    refine ⟨false, by simp [installWorker, hres], ?_⟩
    constructor
    · intro hfalse
      exact Bool.noConfusion hfalse
    · rintro ⟨r, hr, -⟩
      exact Except.noConfusion hr
  | ok resolved =>
    cases hrest : restore resolved with
    | error e =>
      refine ⟨false, by simp [installWorker, hres, hrest], ?_⟩
      constructor
      · intro hfalse
        exact Bool.noConfusion hfalse
      · rintro ⟨r, hr, hr2⟩
        injection hr with hr3
        rw [← hr3, hrest] at hr2
        exact Except.noConfusion hr2
    | ok u =>
      cases u
      refine ⟨true, by simp [installWorker, hres, hrest], ?_⟩
      constructor
      · intro _
        exact ⟨resolved, rfl, hrest⟩
      · intro _
        rfl

/-! ### Claim about server initialization -/

/-- Claim C5: during initialization, if no package.json exists at the
global typings cache root then a minimal manifest with the private flag
is created, and an existing manifest is left unchanged; the manifest
phase runs before resolution, i.e. the file system state handed to the
package manager is exactly the one produced by the manifest phase, and
that state always contains the manifest. -/
theorem initServer_creates_minimal_manifest (globalTypingsCachePath : String)
    (fs : FsState) :
    (fileExists fs (joinPath globalTypingsCachePath "package.json") = false →
        readFile (initManifestPhase globalTypingsCachePath fs)
          (joinPath globalTypingsCachePath "package.json") = some minimalManifest)
    ∧ (∀ c, readFile fs (joinPath globalTypingsCachePath "package.json") = some c →
        readFile (initManifestPhase globalTypingsCachePath fs)
          (joinPath globalTypingsCachePath "package.json") = some c)
    ∧ fileExists (initManifestPhase globalTypingsCachePath fs)
        (joinPath globalTypingsCachePath "package.json") = true
    ∧ (∀ resolveRestore parseIndex,
        initServer resolveRestore parseIndex globalTypingsCachePath fs
          = resolveAndLoadRegistry resolveRestore parseIndex globalTypingsCachePath
              (initManifestPhase globalTypingsCachePath fs)) := by
  by_cases h : fileExists fs (joinPath globalTypingsCachePath "package.json") = true
  · refine ⟨?_, ?_, ?_, fun _ _ => rfl⟩
    · intro hfalse
      rw [h] at hfalse
      exact Bool.noConfusion hfalse
    · intro c hc
      unfold initManifestPhase
      rw [h]
      simpa using hc
    · unfold initManifestPhase
      rw [h]
      simpa using h
  · have hfalse : fileExists fs (joinPath globalTypingsCachePath "package.json") = false :=
      Bool.eq_false_iff.mpr h
    have hwrite : readFile (initManifestPhase globalTypingsCachePath fs)
        (joinPath globalTypingsCachePath "package.json") = some minimalManifest := by
      unfold initManifestPhase
      rw [hfalse]
      simp [readFile, writeFile, List.lookup]
    refine ⟨fun _ => hwrite, ?_, ?_, fun _ _ => rfl⟩
    · intro c hc
      exfalso
      unfold fileExists at hfalse
      rw [hc] at hfalse
      exact Bool.noConfusion hfalse
    · unfold fileExists
      rw [hwrite]
      rfl

/-- Witness for the claim C5 theorem on an empty file system. -/
theorem initServer_creates_minimal_manifest_witness :
    readFile (initManifestPhase "/globalTypingsCache" ⟨[]⟩)
      (joinPath "/globalTypingsCache" "package.json") = some minimalManifest :=
  (initServer_creates_minimal_manifest "/globalTypingsCache" ⟨[]⟩).1 (by decide)

/-! ### Claim about installPackage -/

/-- Claim C7: installPackage, the request kind outside the typings
acquisition flow, raises an explicit error for every input and never
produces a result; it is neither silently ignored nor acted upon. -/
theorem installPackage_always_rejected (options : InstallPackageOptionsWithProject) :
    installPackage options = Except.error "not implemented" := rfl

/-! ### Claims about response dispatch -/

/-- Claim C8: with a project service attached, the response callback
handles every recognized tag: the three action tags are forwarded to
the project service, the two event tags are accepted and ignored, and
the tag not matched by any case (the remaining member of the response
union) makes it throw rather than silently ignore the response. -/
theorem handleResponse_exhaustive (st : ClientModel) (p : ProjectService)
    (h : st.projectService = some p) :
    handleResponse st InstallerResponse.packageInstalled
      = Except.ok [ClientAction.updateTypingsForProject InstallerResponse.packageInstalled]
    ∧ handleResponse st InstallerResponse.invalidateCachedTypings
      = Except.ok [ClientAction.updateTypingsForProject InstallerResponse.invalidateCachedTypings]
    ∧ handleResponse st InstallerResponse.setTypings
      = Except.ok [ClientAction.updateTypingsForProject InstallerResponse.setTypings]
    ∧ handleResponse st InstallerResponse.beginInstallTypes = Except.ok []
    ∧ handleResponse st InstallerResponse.endInstallTypes = Except.ok []
    ∧ (∀ response : InstallerResponse, isForwardedKind response = false →
        response ≠ InstallerResponse.beginInstallTypes →
        response ≠ InstallerResponse.endInstallTypes →
        ∃ e, handleResponse st response = Except.error e) := by
  refine ⟨by simp [handleResponse, h], by simp [handleResponse, h],
    by simp [handleResponse, h], rfl, rfl, ?_⟩
  intro response hfwd hb he
  cases response with
  | packageInstalled => exact Bool.noConfusion hfwd
  | invalidateCachedTypings => exact Bool.noConfusion hfwd
  | setTypings => exact Bool.noConfusion hfwd
  | beginInstallTypes => exact absurd rfl hb
  | endInstallTypes => exact absurd rfl he
  | watchTypingLocations => exact ⟨"unexpected response", rfl⟩

/-- Witness for the claim C8 theorem with a concrete attached project
service. -/
theorem handleResponse_exhaustive_witness :
    handleResponse (attach initClient ⟨"projectService"⟩)
      InstallerResponse.packageInstalled
      = Except.ok [ClientAction.updateTypingsForProject
          InstallerResponse.packageInstalled] :=
  (handleResponse_exhaustive (attach initClient ⟨"projectService"⟩)
    ⟨"projectService"⟩ rfl).1

/-- Claim C9: a WatchTypingLocations response is a member of the
response union accepted by the callback but is matched by no case, so
it falls through to the default branch and throws, in every client
state: delivering it always faults instead of being handled or
ignored. -/
theorem handleResponse_watchTypingLocations_faults (st : ClientModel) :
    handleResponse st InstallerResponse.watchTypingLocations
      = Except.error "unexpected response" := rfl

/-- Claim C10: handling a packageInstalled, invalidate or set response
dereferences the stored project service through a non-null assertion;
when no attach call has occurred (the stored service is none) the
handler faults, and after attach has been called the dereference is
safe and the response is forwarded. -/
theorem handleResponse_requires_attach (st : ClientModel)
    (response : InstallerResponse) (h : isForwardedKind response = true) :
    (st.projectService = none →
        handleResponse st response
          = Except.error "TypeError: cannot read properties of undefined")
    ∧ (∀ p : ProjectService,
        handleResponse (attach st p) response
          = Except.ok [ClientAction.updateTypingsForProject response]) := by
  cases response with
  | packageInstalled =>
    refine ⟨fun hnone => ?_, fun p => rfl⟩
    simp [handleResponse, hnone]
  | invalidateCachedTypings =>
    refine ⟨fun hnone => ?_, fun p => rfl⟩
    simp [handleResponse, hnone]
  | setTypings =>
    refine ⟨fun hnone => ?_, fun p => rfl⟩
    simp [handleResponse, hnone]
  | beginInstallTypes => exact Bool.noConfusion h
  | endInstallTypes => exact Bool.noConfusion h
  | watchTypingLocations => exact Bool.noConfusion h

/-- Witness for the claim C10 theorem: the unattached initial client
faults on a set response, and the attached one forwards it. -/
theorem handleResponse_requires_attach_witness :
    handleResponse initClient InstallerResponse.setTypings
      = Except.error "TypeError: cannot read properties of undefined"
    ∧ handleResponse (attach initClient ⟨"projectService"⟩) InstallerResponse.setTypings
      = Except.ok [ClientAction.updateTypingsForProject InstallerResponse.setTypings] :=
  ⟨(handleResponse_requires_attach initClient InstallerResponse.setTypings
      (by decide)).1 rfl,
   (handleResponse_requires_attach initClient InstallerResponse.setTypings
      (by decide)).2 ⟨"projectService"⟩⟩

/-! ### Claim about install serialization -/

/-- Helper: with the unbounded throttle limit, enqueueing a request
while the pending queue is empty dispatches it immediately. -/
theorem installTypingsAsync_unbounded (request : PendingRequest) (c : Nat)
    (w d : List PendingRequest) :
    installTypingsAsync none request ⟨[], c, w, d⟩
      = ⟨[], c + 1, w ++ [request], d ++ [request]⟩ := rfl

/-- Helper: with the unbounded throttle limit and no completions in
between, a sequence of enqueues leaves the pending queue empty and
appends every request, in submission order, to both the in-flight set
and the dispatch record. -/
theorem enqueueAll_unbounded (requests : List PendingRequest) :
    ∀ (c : Nat) (w d : List PendingRequest),
      enqueueAll none requests ⟨[], c, w, d⟩
        = ⟨[], c + requests.length, w ++ requests, d ++ requests⟩ := by
  induction requests with
  | nil =>
    intro c w d
    simp [enqueueAll]
  | cons r rs ih =>
    intro c w d
    have h1 : enqueueAll none (r :: rs) ⟨[], c, w, d⟩
        = enqueueAll none rs (installTypingsAsync none r ⟨[], c, w, d⟩) := rfl
    rw [h1, installTypingsAsync_unbounded, ih]
    rw [List.length_cons]
    have harith : c + 1 + rs.length = c + (rs.length + 1) := by omega
    have hl : ∀ xs : List PendingRequest, (xs ++ [r]) ++ rs = xs ++ r :: rs := by
      intro xs
      simp
    rw [harith, hl w, hl d]

/-- Counterexample to claim C1: the installer is constructed with
throttle limit Infinity (line 136), so enqueueing a second install
request for the same global typings cache root while the first is still
in flight dispatches it immediately: two installWorker executions are
in flight at the same instant, refuting the at-most-one guarantee. -/
theorem overlappingInstallWorkers_counterexample :
    (⟨1, ["node"], "/globalTypingsCache"⟩ : PendingRequest).cwd
      = (⟨2, ["lodash"], "/globalTypingsCache"⟩ : PendingRequest).cwd
    ∧ (installTypingsAsync webThrottleLimit ⟨2, ["lodash"], "/globalTypingsCache"⟩
        (installTypingsAsync webThrottleLimit ⟨1, ["node"], "/globalTypingsCache"⟩
          initQueue)).inFlightWorkers
      = [⟨1, ["node"], "/globalTypingsCache"⟩, ⟨2, ["lodash"], "/globalTypingsCache"⟩]
    ∧ ¬ ((installTypingsAsync webThrottleLimit ⟨2, ["lodash"], "/globalTypingsCache"⟩
        (installTypingsAsync webThrottleLimit ⟨1, ["node"], "/globalTypingsCache"⟩
          initQueue)).inFlightRequestCount ≤ 1) := by
  refine ⟨rfl, rfl, ?_⟩
  decide

/-- Claim C1, amended: for every sequence of install requests enqueued
toward the same global typings cache root, requests are dispatched to
installWorker in FIFO submission order, but because the installer is
constructed with throttle limit Infinity every request is dispatched
immediately upon submission: with no completions in between, all of
them are in flight concurrently and none waits in the pending queue, so
overlapping executions are possible and installs are not serialized. -/
theorem unboundedThrottle_dispatches_fifo (requests : List PendingRequest) :
    (enqueueAll webThrottleLimit requests initQueue).dispatchOrder = requests
    ∧ (enqueueAll webThrottleLimit requests initQueue).inFlightWorkers = requests
    ∧ (enqueueAll webThrottleLimit requests initQueue).pendingRunRequests = []
    ∧ (enqueueAll webThrottleLimit requests initQueue).inFlightRequestCount
        = requests.length := by
  have h := enqueueAll_unbounded requests 0 [] []
  have hq : enqueueAll webThrottleLimit requests initQueue
      = ⟨[], 0 + requests.length, [] ++ requests, [] ++ requests⟩ := h
  rw [hq]
  refine ⟨by simp, by simp, rfl, by simp⟩

end WebTypings
